import Mathlib

/-!
# Tag reconciliation (mediapackage) and ephemeral secret lookup (secretsmanager)

A shallow embedding of

* `internal/service/mediapackage/tags_gen.go`
  (`listTags`, `ListTags`, `Tags`, `KeyValueTags`, `updateTags`, `UpdateTags`), and
* `internal/service/secretsmanager/secret_ephemeral.go` (`ephemeralSecret.Open`).

Remote calls are modelled by explicit state passing: a client is a record of
functions over a remote state `σ`, and every operation returns the list of
remote calls it issued, the remote state after them, and its Go result.
-/

set_option autoImplicit false

/-! ## Go values -/

/-- A Go `error` value: either an error produced elsewhere (its `Error()` text is all
we see of it), or the `*fmt.wrapError` built by `fmt.Errorf` with a `%w` verb. -/
inductive GoError where
  | errorString (text : String)
  | wrapError (msg : String) (err : GoError)
  deriving DecidableEq, Repr

/-- The method `Error()` of a Go error. -/
def GoError.Error : GoError → String
  | .errorString text => text
  | .wrapError msg _ => msg

/-- The method `Unwrap()` of a Go error (`nil` when nothing is wrapped). -/
def GoError.Unwrap : GoError → Option GoError
  | .errorString _ => none
  | .wrapError _ err => some err

/-- The call `fmt.Errorf(pre + "%s" + mid + "%w", s, err)`: the message is the format
with `s` and `err.Error()` substituted, and the result wraps `err`. -/
def fmtErrorf (pre : String) (s : String) (mid : String) (err : GoError) : GoError :=
  .wrapError (pre ++ s ++ mid ++ err.Error) err

/-- A Go `map[string]string`: a finite list of entries with pairwise distinct keys.
The `nil` map is the map without entries. -/
structure StringMap where
  entries : List (String × String)
  nodupKeys : (entries.map Prod.fst).Nodup

namespace StringMap

/-- The map without entries. -/
def empty : StringMap := ⟨[], List.nodup_nil⟩

/-- The Go lookup `v, ok := m[k]`. -/
def lookup (m : StringMap) (k : String) : Option String :=
  (m.entries.find? (fun e => e.1 == k)).map Prod.snd

/-- The Go test `_, ok := m[k]`. -/
def contains (m : StringMap) (k : String) : Bool :=
  (m.lookup k).isSome

/-- The Go builtin `len(m)`. -/
def len (m : StringMap) : Nat := m.entries.length

/-- The keys of the map. -/
def keys (m : StringMap) : List String := m.entries.map Prod.fst

/-- The entries of `m` that satisfy `p`: the map that a Go loop over `m` builds when it
copies the entries `k, v` with `p k v`. -/
def filter (p : String → String → Bool) (m : StringMap) : StringMap :=
  ⟨m.entries.filter (fun e => p e.1 e.2),
    m.nodupKeys.sublist ((List.filter_sublist _).map _)⟩

end StringMap

/-! ## Package `internal/tags` -/

namespace tftags

/-- Modelled from the spec: the type `KeyValueTags` of package `internal/tags` is not in
the sources at hand. The spec's TagSet is "an immutable mapping from tag key (string)
to tag value (string); keys unique". -/
abbrev KeyValueTags := StringMap

/-- Modelled from the spec: `tftags.New` is not in the sources at hand. It builds the
TagSet of "the returned key/value pairs", "empty set if none"; the argument of static
type `any` is `nil` or a map. -/
def New (i : Option StringMap) : KeyValueTags :=
  match i with
  | none => StringMap.empty
  | some m => m

/-- Modelled from the spec: `KeyValueTags.Map` is not in the sources at hand; the
key/value map of a TagSet. -/
def KeyValueTags.Map (tags : KeyValueTags) : StringMap := tags

/-- Modelled from the spec: `KeyValueTags.Keys` is not in the sources at hand; the keys
of a TagSet as a list. -/
def KeyValueTags.Keys (tags : KeyValueTags) : List String := tags.keys

/-- Modelled from the spec: `KeyValueTags.Removed` is not in the sources at hand.
`removed = observed.keysNotIn(desired)`: the entries of `tags` whose key is absent
from `newTags`. -/
def KeyValueTags.Removed (tags newTags : KeyValueTags) : KeyValueTags :=
  tags.filter (fun k _ => !newTags.contains k)

/-- Modelled from the spec: `KeyValueTags.Updated` is not in the sources at hand.
`updated = desired.keysWhereValueDiffersOrNew(observed)`: the entries of `newTags`
whose key is new or whose value differs from the one in `tags`. -/
def KeyValueTags.Updated (tags newTags : KeyValueTags) : KeyValueTags :=
  newTags.filter (fun k v => !(tags.lookup k == some v))

/-- Modelled from the spec: `KeyValueTags.IgnoreSystem` and the constant
`names.MediaPackage` are not in the sources at hand. The SystemTagFilter is "a
predicate ... scoped to the target platform"; `isSystemKey` is the predicate that the
service name selects, and tags matching it are dropped. -/
def KeyValueTags.IgnoreSystem (isSystemKey : String → Bool) (tags : KeyValueTags) :
    KeyValueTags :=
  tags.filter (fun k _ => !isSystemKey k)

/-- The per-call tagging data that `tftags.FromContext` finds in a context; `TagsIn`
and `TagsOut` are `option.Option` values. -/
structure InContext where
  TagsIn : Option KeyValueTags
  TagsOut : Option KeyValueTags

end tftags

/-! ## Package `internal/service/mediapackage` -/

namespace mediapackage

/-- The request of `ListTagsForResource`. -/
structure ListTagsForResourceInput where
  ResourceArn : Option String

/-- The response of `ListTagsForResource`. -/
structure ListTagsForResourceOutput where
  Tags : StringMap

/-- The request of `UntagResource`. -/
structure UntagResourceInput where
  ResourceArn : Option String
  TagKeys : List String

/-- The request of `TagResource`. -/
structure TagResourceInput where
  ResourceArn : Option String
  Tags : StringMap

/-- A remote call, as the transport sees it. -/
inductive Call where
  | ListTagsForResource (input : ListTagsForResourceInput)
  | UntagResource (input : UntagResourceInput)
  | TagResource (input : TagResourceInput)

/-- The transport `*mediapackage.Client` over a remote state `σ`: each operation reads
the request and the remote state, and returns its Go result with the next state.
`UntagResource` and `TagResource` return their error (`none` is `nil`). -/
structure Client (σ : Type) where
  ListTagsForResource : ListTagsForResourceInput → σ → Except GoError ListTagsForResourceOutput × σ
  UntagResource : UntagResourceInput → σ → Option GoError × σ
  TagResource : TagResourceInput → σ → Option GoError × σ

/-- What running an operation gives: the remote calls issued, in order, the remote
state after them, and the Go result. -/
structure Run (σ α : Type) where
  calls : List Call
  state : σ
  result : α

/-- The function `aws.String`: a non-nil pointer to the string. -/
def awsString (s : String) : Option String := some s

/-- Embedding of `Tags` (tags_gen.go, lines 54-56). -/
def Tags (tags : tftags.KeyValueTags) : StringMap := tags.Map

/-- Embedding of `KeyValueTags` (tags_gen.go, lines 59-61). -/
def KeyValueTags (tags : StringMap) : tftags.KeyValueTags := tftags.New (some tags)

/-- Embedding of `listTags` (tags_gen.go, lines 21-33). The Go result pair
`(tftags.KeyValueTags, error)` is kept as a pair. -/
def listTags {σ : Type} (conn : Client σ) (s : σ) (identifier : String) :
    Run σ (tftags.KeyValueTags × Option GoError) :=
  let input : ListTagsForResourceInput := { ResourceArn := awsString identifier }
  match conn.ListTagsForResource input s with
  | (.error err, s1) => ⟨[Call.ListTagsForResource input], s1, (tftags.New none, some err)⟩
  | (.ok output, s1) => ⟨[Call.ListTagsForResource input], s1, (KeyValueTags output.Tags, none)⟩

/-- Embedding of `servicePackage.ListTags` (tags_gen.go, lines 37-49). The context is
represented by what `tftags.FromContext` finds in it; the second component is the
context after the call. -/
def ListTags {σ : Type} (ctx : Option tftags.InContext) (meta : Client σ) (s : σ)
    (identifier : String) : Run σ (Option GoError) × Option tftags.InContext :=
  let r := listTags meta s identifier
  match r.result with
  | (_, some err) => (⟨r.calls, r.state, some err⟩, ctx)
  | (tags, none) =>
    match ctx with
    | some inContext => (⟨r.calls, r.state, none⟩, some { inContext with TagsOut := some tags })
    | none => (⟨r.calls, r.state, none⟩, none)

/-- The second half of `updateTags` (tags_gen.go, lines 106-121), entered with the
calls issued so far and the remote state after them. -/
def updateTags.tagStep {σ : Type} (isSystemKey : String → Bool) (conn : Client σ)
    (identifier : String) (oldTags newTags : tftags.KeyValueTags) (calls : List Call) (s : σ) :
    Run σ (Option GoError) :=
  let updatedTags := (oldTags.Updated newTags).IgnoreSystem isSystemKey
  if updatedTags.len > 0 then
    let input : TagResourceInput :=
      { ResourceArn := awsString identifier, Tags := Tags updatedTags }
    match conn.TagResource input s with
    | (some err, s1) =>
      ⟨calls ++ [Call.TagResource input], s1,
        some (fmtErrorf "tagging resource (" identifier "): " err)⟩
    | (none, s1) => ⟨calls ++ [Call.TagResource input], s1, none⟩
  else
    ⟨calls, s, none⟩

/-- Embedding of `updateTags` (tags_gen.go, lines 85-122). The context, which only
gains a logging field, and the options `optFns`, which are handed on to the transport,
are left out. -/
def updateTags {σ : Type} (isSystemKey : String → Bool) (conn : Client σ) (s : σ)
    (identifier : String) (oldTagsMap newTagsMap : Option StringMap) :
    Run σ (Option GoError) :=
  let oldTags := tftags.New oldTagsMap
  let newTags := tftags.New newTagsMap
  let removedTags := (oldTags.Removed newTags).IgnoreSystem isSystemKey
  if removedTags.len > 0 then
    let input : UntagResourceInput :=
      { ResourceArn := awsString identifier, TagKeys := removedTags.Keys }
    match conn.UntagResource input s with
    | (some err, s1) =>
      ⟨[Call.UntagResource input], s1,
        some (fmtErrorf "untagging resource (" identifier "): " err)⟩
    | (none, s1) =>
      updateTags.tagStep isSystemKey conn identifier oldTags newTags [Call.UntagResource input] s1
  else
    updateTags.tagStep isSystemKey conn identifier oldTags newTags [] s

/-- Embedding of `servicePackage.UpdateTags` (tags_gen.go, lines 126-128). -/
def UpdateTags {σ : Type} (isSystemKey : String → Bool) (meta : Client σ) (s : σ)
    (identifier : String) (oldTags newTags : Option StringMap) : Run σ (Option GoError) :=
  updateTags isSystemKey meta s identifier oldTags newTags

end mediapackage

/-! ## Package `internal/service/secretsmanager` -/

namespace secretsmanager

/-- The plugin framework's `types.String`: a null, an unknown or a known string. -/
inductive StringValue where
  | null
  | unknown
  | known (value : String)
  deriving DecidableEq, Repr

/-- The method `IsNull` of `types.String`. -/
def StringValue.IsNull : StringValue → Bool
  | .null => true
  | _ => false

/-- The method `ValueStringPointer` of `types.String`: `nil` for a null value, else a
pointer to the held string (the empty string for an unknown value). -/
def StringValue.ValueStringPointer : StringValue → Option String
  | .null => none
  | .unknown => some ""
  | .known value => some value

/-- The method `String` of `types.String`: a fixed text for a null or unknown value,
else the held string as rendered by the verb `%q`, here `quote`. -/
def StringValue.String (quote : String → String) : StringValue → String
  | .null => "<null>"
  | .unknown => "<unknown>"
  | .known value => quote value

/-- The request of `GetSecretValue`; every field is a `*string`. -/
structure GetSecretValueInput where
  SecretId : Option String
  VersionId : Option String
  VersionStage : Option String
  deriving DecidableEq, Repr

/-- A `time.Time`. -/
structure Time where
  unixNano : Int
  deriving DecidableEq, Repr

/-- The response of `GetSecretValue`: `ARN` and `SecretString` are `*string`,
`CreatedDate` is `*time.Time`, `SecretBinary` is a `[]byte` (`none` is the nil slice). -/
structure GetSecretValueOutput where
  ARN : Option String
  CreatedDate : Option Time
  SecretBinary : Option (List UInt8)
  SecretString : Option String
  deriving DecidableEq, Repr

/-- The struct `epSecretData` (secret_ephemeral.go, lines 105-114). -/
structure epSecretData where
  SecretID : StringValue
  VersionID : StringValue
  VersionStage : StringValue
  ARN : StringValue
  CreatedDate : StringValue
  SecretBinary : StringValue
  SecretString : StringValue
  deriving DecidableEq, Repr

/-- The severity of a diagnostic. -/
inductive Severity where
  | error
  | warning
  deriving DecidableEq, Repr

/-- A diagnostic of the plugin framework. -/
structure Diagnostic where
  severity : Severity
  summary : String
  detail : String
  deriving DecidableEq, Repr

/-- The type `diag.Diagnostics`. -/
abbrev Diagnostics := List Diagnostic

/-- The method `Diagnostics.HasError`. -/
def Diagnostics.HasError (diags : Diagnostics) : Bool :=
  diags.any (fun d => d.severity == Severity.error)

/-- The method `Diagnostics.Append`: adds the diagnostics that are not yet present. -/
def Diagnostics.Append (diags : Diagnostics) (new : List Diagnostic) : Diagnostics :=
  new.foldl (fun acc d => if d ∈ acc then acc else acc ++ [d]) diags

/-- The method `Diagnostics.AddError`. -/
def Diagnostics.AddError (diags : Diagnostics) (summary detail : String) : Diagnostics :=
  Diagnostics.Append diags [⟨Severity.error, summary, detail⟩]

/-- The request of `Open`: `Config.Get(ctx, &data)` gives the decoded configuration and
the diagnostics of decoding it. -/
structure OpenRequest where
  ConfigGet : epSecretData × Diagnostics

/-- The response of `Open`: `Result` is `none` until `Result.Set` stores the data. -/
structure OpenResponse where
  Result : Option epSecretData
  Diagnostics : Diagnostics
  deriving DecidableEq, Repr

/-- A Go run-time panic. -/
inductive Panic where
  | nilPointerDereference
  deriving DecidableEq, Repr

/-- The dereference `*p` of a Go pointer, which panics on `nil`. -/
def deref {α : Type} (p : Option α) : Except Panic α :=
  match p with
  | none => .error Panic.nilPointerDereference
  | some v => .ok v

/-- The functions that `Open` calls and that are not in the sources at hand: the verb
`%q` of package `fmt`, `secretVersionCreateResourceID`, `findSecretVersion` applied to
the client, `Time.Format` with the layout `time.RFC3339`, the Go conversion `string(b)`
of a non-empty byte slice, and `fwflex.StringValueToFramework`. -/
structure Externals where
  quote : String → String
  secretVersionCreateResourceID : String → String → String
  findSecretVersion : GetSecretValueInput → Except GoError GetSecretValueOutput
  formatRFC3339 : Time → String
  bytesToString : List UInt8 → String
  StringValueToFramework : String → StringValue

/-- The Go conversion `string(b)` of a byte slice: empty for a nil or empty slice. -/
def goString (x : Externals) (b : Option (List UInt8)) : String :=
  match b with
  | none => ""
  | some [] => ""
  | some (c :: cs) => x.bytesToString (c :: cs)

/-- The version selection of `Open` (secret_ephemeral.go, lines 73-84): the request
built and the local variable `version`. -/
def Open.selectVersion (x : Externals) (data : epSecretData) : GetSecretValueInput × String :=
  let input : GetSecretValueInput :=
    { SecretId := data.SecretID.ValueStringPointer, VersionId := none, VersionStage := none }
  if !data.VersionID.IsNull then
    ({ input with VersionId := data.VersionID.ValueStringPointer },
      data.VersionID.String x.quote)
  else if !data.VersionStage.IsNull then
    ({ input with VersionStage := data.VersionStage.ValueStringPointer },
      data.VersionStage.String x.quote)
  else
    (input, "")

/-- The local variable `id` of `Open` (secret_ephemeral.go, line 86). -/
def Open.id (x : Externals) (data : epSecretData) : String :=
  x.secretVersionCreateResourceID (data.SecretID.String x.quote) (Open.selectVersion x data).2

/-- The success path of `Open` (secret_ephemeral.go, lines 97-102): the pointer fields
`ARN`, `CreatedDate` and `SecretString` are dereferenced, in this order, and
`Result.Set` stores the data without a diagnostic. -/
def Open.store (x : Externals) (data : epSecretData) (output : GetSecretValueOutput)
    (response : OpenResponse) : Except Panic OpenResponse := do
  let arn ← deref output.ARN
  let data := { data with ARN := x.StringValueToFramework arn }
  let created ← deref output.CreatedDate
  let data := { data with CreatedDate := x.StringValueToFramework (x.formatRFC3339 created) }
  let data := { data with SecretBinary := x.StringValueToFramework (goString x output.SecretBinary) }
  let secret ← deref output.SecretString
  let data := { data with SecretString := x.StringValueToFramework secret }
  pure { response with Result := some data }

/-- What running `Open` gives: the requests passed to `findSecretVersion`, and either a
panic or the response as `Open` leaves it on return. -/
structure OpenRun where
  lookups : List GetSecretValueInput
  outcome : Except Panic OpenResponse

/-- Embedding of `ephemeralSecret.Open` (secret_ephemeral.go, lines 64-103). `response`
is the response as `Open` receives it. -/
def Open (x : Externals) (request : OpenRequest) (response : OpenResponse) : OpenRun :=
  let data := request.ConfigGet.1
  let response :=
    { response with Diagnostics := Diagnostics.Append response.Diagnostics request.ConfigGet.2 }
  if Diagnostics.HasError response.Diagnostics then
    ⟨[], .ok response⟩
  else
    let input := (Open.selectVersion x data).1
    let id := Open.id x data
    match x.findSecretVersion input with
    | .error err =>
      ⟨[input], .ok { response with
        Diagnostics := Diagnostics.AddError response.Diagnostics
          ("failed reading Secrets Manager Secret Version (" ++ id ++ ")") err.Error }⟩
    | .ok output => ⟨[input], Open.store x data output response⟩

end secretsmanager

/-! ## Specification-side definitions and sample inputs -/

namespace mediapackage

/-- What a remote call carries, with maps flattened to their entries. -/
inductive CallView where
  | list (arn : Option String)
  | untag (arn : Option String) (keys : List String)
  | tag (arn : Option String) (entries : List (String × String))
  deriving DecidableEq, Repr

/-- The view of a call. -/
def Call.view : Call → CallView
  | .ListTagsForResource input => .list input.ResourceArn
  | .UntagResource input => .untag input.ResourceArn input.TagKeys
  | .TagResource input => .tag input.ResourceArn input.Tags.entries

/-- Whether a view is that of an `UntagResource` call. -/
def CallView.isUntag : CallView → Bool
  | .untag _ _ => true
  | _ => false

/-- Whether a view is that of a `TagResource` call. -/
def CallView.isTag : CallView → Bool
  | .tag _ _ => true
  | _ => false

/-- The tag keys in a view. -/
def CallView.payloadKeys : CallView → List String
  | .list _ => []
  | .untag _ keys => keys
  | .tag _ entries => entries.map Prod.fst

/-- Whether a call is an `UntagResource` call. -/
def Call.isUntag : Call → Bool
  | .UntagResource _ => true
  | _ => false

/-- Whether a call is a `TagResource` call. -/
def Call.isTag : Call → Bool
  | .TagResource _ => true
  | _ => false

/-- The tag keys in the payload of a call: the `TagKeys` of an `UntagResource` call and
the keys of the `Tags` of a `TagResource` call. -/
def Call.payloadKeys : Call → List String
  | .ListTagsForResource _ => []
  | .UntagResource input => input.TagKeys
  | .TagResource input => input.Tags.keys

/-- In the spec's words: the non-system keys of `observed` that are absent from
`desired`. -/
def specRemovedKeys (isSystemKey : String → Bool) (observed desired : StringMap) :
    List String :=
  observed.keys.filter (fun k => !isSystemKey k && !decide (k ∈ desired.keys))

/-- In the spec's words: the non-system entries of `desired` that are new (their key is
missing from `observed`) or whose value differs from the one in `observed`. -/
def specUpdatedEntries (isSystemKey : String → Bool) (observed desired : StringMap) :
    List (String × String) :=
  desired.entries.filter (fun e =>
    !isSystemKey e.1 &&
      (match observed.lookup e.1 with
        | none => true
        | some v => v != e.2))

/-- A system-tag filter for the samples: the keys that start with `aws:`. -/
def awsPrefixed (k : String) : Bool := "aws:".data.isPrefixOf k.data

/-- A transport whose calls all succeed; the remote state counts the calls. -/
def succeedingClient : Client Nat :=
  { ListTagsForResource := fun _ n => (.ok ⟨⟨[("env", "prod")], by decide⟩⟩, n + 1)
    UntagResource := fun _ n => (none, n + 1)
    TagResource := fun _ n => (none, n + 1) }

/-- A transport whose `UntagResource` and `ListTagsForResource` calls fail. -/
def failingClient : Client Nat :=
  { ListTagsForResource := fun _ n => (.error (.errorString "throttled"), n + 1)
    UntagResource := fun _ n => (some (.errorString "throttled"), n + 1)
    TagResource := fun _ n => (none, n + 1) }

/-- The tag set `a:1, b:2`. -/
def tagsAB : StringMap := ⟨[("a", "1"), ("b", "2")], by decide⟩

/-- The tag set `b:3, c:4`. -/
def tagsBC : StringMap := ⟨[("b", "3"), ("c", "4")], by decide⟩

/-- The tag set `a:1`. -/
def tagsA : StringMap := ⟨[("a", "1")], by decide⟩

/-- The tag set `b:2`. -/
def tagsB : StringMap := ⟨[("b", "2")], by decide⟩

/-- A tag set with system-reserved keys only. -/
def tagsSys : StringMap := ⟨[("aws:createdBy", "x")], by decide⟩

/-- Some per-call tagging data. -/
def sampleInContext : tftags.InContext := { TagsIn := none, TagsOut := some tagsA }

end mediapackage

namespace secretsmanager

/-- The diagnostics that a run of `Open` leaves in the response (none after a panic). -/
def OpenRun.reported (r : OpenRun) : List Diagnostic :=
  match r.outcome with
  | .ok response => response.Diagnostics
  | .error _ => []

/-- In the spec's words: a raw input is present when it is "non-null and not the empty
string". -/
def specPresent (v : StringValue) : Bool :=
  !v.IsNull && v != StringValue.known ""

/-- In the spec's words: the version ID and the version stage that the request carries,
by the precedence "version ID if present, else version stage if present, else neither". -/
def specSelect (versionID versionStage : StringValue) : Option String × Option String :=
  if specPresent versionID then (versionID.ValueStringPointer, none)
  else if specPresent versionStage then (none, versionStage.ValueStringPointer)
  else (none, none)

/-- In the spec's words: the failure text
`failed reading secret (<compositeIdentifier>): <cause>`. -/
def specFailureText (compositeIdentifier cause : String) : String :=
  "failed reading secret (" ++ compositeIdentifier ++ "): " ++ cause

/-- The configuration with secret name `s` that selects by version ID `v`. -/
def dataByVersionID (s v : String) : epSecretData :=
  { SecretID := .known s, VersionID := .known v, VersionStage := .null,
    ARN := .null, CreatedDate := .null, SecretBinary := .null, SecretString := .null }

/-- The configuration with secret name `s` that selects by version stage `v`. -/
def dataByVersionStage (s v : String) : epSecretData :=
  { SecretID := .known s, VersionID := .null, VersionStage := .known v,
    ARN := .null, CreatedDate := .null, SecretBinary := .null, SecretString := .null }

/-- The configuration with secret name `s`, version ID `versionID` and version stage
`versionStage`. -/
def dataOf (s : String) (versionID versionStage : StringValue) : epSecretData :=
  { SecretID := .known s, VersionID := versionID, VersionStage := versionStage,
    ARN := .null, CreatedDate := .null, SecretBinary := .null, SecretString := .null }

/-- Sample externals: `%q` puts the string between double quotes, the composite
identifier joins its parts with a bar, the lookup answers `lookup` whatever the request,
and an empty string converts to a null framework value. -/
def sampleExternals (lookup : Except GoError GetSecretValueOutput) : Externals :=
  { quote := fun v => "\"" ++ v ++ "\""
    secretVersionCreateResourceID := fun secretID versionID => secretID ++ "|" ++ versionID
    findSecretVersion := fun _ => lookup
    formatRFC3339 := fun _ => "2024-05-01T10:00:00Z"
    bytesToString := fun b => String.mk (b.map (fun c => Char.ofNat c.toNat))
    StringValueToFramework := fun v => if v = "" then .null else .known v }

/-- A response with a string payload and no binary payload. -/
def outputStringOnly : GetSecretValueOutput :=
  { ARN := some "arn:aws:secretsmanager:eu-west-1:111122223333:secret:s1",
    CreatedDate := some ⟨0⟩, SecretBinary := none, SecretString := some "hello" }

/-- A response with a binary payload and no string payload: a binary-only secret. -/
def outputBinaryOnly : GetSecretValueOutput :=
  { ARN := some "arn:aws:secretsmanager:eu-west-1:111122223333:secret:s1",
    CreatedDate := some ⟨0⟩, SecretBinary := some [104, 105], SecretString := none }

/-- The response as `Open` receives it: no result, no diagnostics. -/
def emptyResponse : OpenResponse := { Result := none, Diagnostics := [] }

end secretsmanager

/-! ## Maps -/

theorem StringMap.lookup_eq_some_iff (m : StringMap) (k v : String) :
    m.lookup k = some v ↔ (k, v) ∈ m.entries := by
  obtain ⟨es, hnd⟩ := m
  unfold StringMap.lookup
  simp only
  induction es with
  | nil => simp
  | cons e es ih =>
    obtain ⟨k1, v1⟩ := e
    rw [List.map_cons, List.nodup_cons] at hnd
    rw [List.find?_cons, List.mem_cons]
    by_cases hk : k1 = k
    · subst hk
      have hno : (k1, v) ∉ es := fun h => hnd.1 (List.mem_map.2 ⟨(k1, v), h, rfl⟩)
      have hb : ((k1, v1).1 == k1) = true := by simp
      rw [hb]
      constructor
      · intro h
        have hv : v1 = v := by simpa using h
        exact Or.inl (by rw [hv])
      · rintro (h | h)
        · have hv : v = v1 := congrArg Prod.snd h
          simp [hv]
        · exact absurd h hno
    · have hb : ((k1, v1).1 == k) = false := by simp [hk]
      rw [hb]
      simp only
      rw [ih hnd.2]
      constructor
      · intro h
        exact Or.inr h
      · rintro (h | h)
        · exact absurd (congrArg Prod.fst h).symm hk
        · exact h

theorem StringMap.lookup_eq_none_iff (m : StringMap) (k : String) :
    m.lookup k = none ↔ k ∉ m.keys := by
  unfold StringMap.lookup StringMap.keys
  simp only [Option.map_eq_none', List.find?_eq_none, List.mem_map, not_exists, not_and]
  constructor
  · intro h e he hek
    exact absurd (h e he) (by simp [hek])
  · intro h e he
    have := h e he
    simpa using this

theorem StringMap.contains_iff (m : StringMap) (k : String) :
    m.contains k = true ↔ k ∈ m.keys := by
  unfold StringMap.contains
  rw [← not_iff_not, ← StringMap.lookup_eq_none_iff]
  simp

/-! ## The tag diff -/

theorem removedKeys_eq_spec (isSystemKey : String → Bool) (oldTags newTags : StringMap) :
    ((tftags.KeyValueTags.Removed oldTags newTags).IgnoreSystem isSystemKey).Keys =
      mediapackage.specRemovedKeys isSystemKey oldTags newTags := by
  unfold tftags.KeyValueTags.Keys tftags.KeyValueTags.IgnoreSystem tftags.KeyValueTags.Removed
    mediapackage.specRemovedKeys StringMap.filter StringMap.keys
  simp only
  rw [List.filter_filter, List.filter_map]
  congr 1
  apply List.filter_congr
  intro e _
  have h := StringMap.contains_iff newTags e.1
  unfold StringMap.keys at h
  by_cases hc : newTags.contains e.1 = true
  · simp [hc, h.1 hc]
  · have hn : e.1 ∉ List.map Prod.fst newTags.entries := fun hm => hc (h.2 hm)
    simp only [Bool.not_eq_true] at hc
    simp [hc, hn]

theorem updatedEntries_eq_spec (isSystemKey : String → Bool) (oldTags newTags : StringMap) :
    (mediapackage.Tags
        ((tftags.KeyValueTags.Updated oldTags newTags).IgnoreSystem isSystemKey)).entries =
      mediapackage.specUpdatedEntries isSystemKey oldTags newTags := by
  unfold mediapackage.Tags tftags.KeyValueTags.Map tftags.KeyValueTags.IgnoreSystem
    tftags.KeyValueTags.Updated mediapackage.specUpdatedEntries StringMap.filter
  simp only
  rw [List.filter_filter]
  apply List.filter_congr
  intro e _
  cases hl : oldTags.lookup e.1 with
  | none => simp
  | some v =>
    by_cases hv : v = e.2
    · simp [hv]
    · have h1 : (v == e.2) = false := by simpa using hv
      have h2 : (v != e.2) = true := by simpa using hv
      simp [h1, h2]

theorem StringMap.len_pos_iff (m : StringMap) : m.len > 0 ↔ m.entries ≠ [] := by
  unfold StringMap.len
  exact List.length_pos

theorem removedLen_pos_iff (isSystemKey : String → Bool) (oldTags newTags : StringMap) :
    ((tftags.KeyValueTags.Removed oldTags newTags).IgnoreSystem isSystemKey).len > 0 ↔
      mediapackage.specRemovedKeys isSystemKey oldTags newTags ≠ [] := by
  rw [← removedKeys_eq_spec, StringMap.len_pos_iff]
  unfold tftags.KeyValueTags.Keys StringMap.keys
  simp

theorem updatedLen_pos_iff (isSystemKey : String → Bool) (oldTags newTags : StringMap) :
    ((tftags.KeyValueTags.Updated oldTags newTags).IgnoreSystem isSystemKey).len > 0 ↔
      mediapackage.specUpdatedEntries isSystemKey oldTags newTags ≠ [] := by
  rw [← updatedEntries_eq_spec, StringMap.len_pos_iff]
  rfl

/-! ## The calls of `updateTags` -/

theorem tagStep_calls_view {σ : Type} (isSystemKey : String → Bool)
    (conn : mediapackage.Client σ) (identifier : String) (oldTags newTags : StringMap)
    (calls : List mediapackage.Call) (s : σ) :
    (mediapackage.updateTags.tagStep isSystemKey conn identifier oldTags newTags calls s).calls.map
        mediapackage.Call.view =
      calls.map mediapackage.Call.view ++
        (if mediapackage.specUpdatedEntries isSystemKey oldTags newTags = [] then []
         else [mediapackage.CallView.tag (some identifier)
            (mediapackage.specUpdatedEntries isSystemKey oldTags newTags)]) := by
  unfold mediapackage.updateTags.tagStep
  simp only []
  by_cases h : mediapackage.specUpdatedEntries isSystemKey oldTags newTags = []
  · have hlen : ¬ ((tftags.KeyValueTags.Updated oldTags newTags).IgnoreSystem isSystemKey).len > 0 := by
      rw [updatedLen_pos_iff]
      simpa using h
    rw [if_neg hlen, if_pos h]
    simp
  · have hlen := (updatedLen_pos_iff isSystemKey oldTags newTags).2 h
    rw [if_pos hlen, if_neg h]
    split <;>
      simp [mediapackage.Call.view, mediapackage.awsString, updatedEntries_eq_spec]

theorem tagStep_result {σ : Type} (isSystemKey : String → Bool)
    (conn : mediapackage.Client σ) (identifier : String) (oldTags newTags : StringMap)
    (calls : List mediapackage.Call) (s : σ)
    (hT : ∀ i t, (conn.TagResource i t).1 = none) :
    (mediapackage.updateTags.tagStep isSystemKey conn identifier oldTags newTags calls s).result =
      none := by
  unfold mediapackage.updateTags.tagStep
  simp only []
  split
  · split
    · rename_i err s1 heq
      have hnone := congrArg Prod.fst heq
      rw [hT] at hnone
      exact absurd hnone (by simp)
    · rfl
  · rfl

theorem updateTags_calls_view {σ : Type} (isSystemKey : String → Bool)
    (conn : mediapackage.Client σ) (s : σ) (identifier : String)
    (oldTagsMap newTagsMap : Option StringMap) :
    (mediapackage.updateTags isSystemKey conn s identifier oldTagsMap newTagsMap).calls.map
        mediapackage.Call.view =
      (if mediapackage.specRemovedKeys isSystemKey (tftags.New oldTagsMap)
            (tftags.New newTagsMap) = [] then []
       else [mediapackage.CallView.untag (some identifier)
          (mediapackage.specRemovedKeys isSystemKey (tftags.New oldTagsMap)
            (tftags.New newTagsMap))]) ++
      (if mediapackage.specRemovedKeys isSystemKey (tftags.New oldTagsMap)
              (tftags.New newTagsMap) ≠ [] ∧
            (conn.UntagResource
              ⟨some identifier, mediapackage.specRemovedKeys isSystemKey (tftags.New oldTagsMap)
                (tftags.New newTagsMap)⟩ s).1 ≠ none then []
       else if mediapackage.specUpdatedEntries isSystemKey (tftags.New oldTagsMap)
            (tftags.New newTagsMap) = [] then []
       else [mediapackage.CallView.tag (some identifier)
          (mediapackage.specUpdatedEntries isSystemKey (tftags.New oldTagsMap)
            (tftags.New newTagsMap))]) := by
  unfold mediapackage.updateTags
  simp only []
  by_cases h : mediapackage.specRemovedKeys isSystemKey (tftags.New oldTagsMap)
      (tftags.New newTagsMap) = []
  · have hlen : ¬ ((tftags.KeyValueTags.Removed (tftags.New oldTagsMap)
        (tftags.New newTagsMap)).IgnoreSystem isSystemKey).len > 0 := by
      rw [removedLen_pos_iff]
      simpa using h
    rw [if_neg hlen, tagStep_calls_view]
    simp [h]
  · have hlen := (removedLen_pos_iff isSystemKey (tftags.New oldTagsMap)
      (tftags.New newTagsMap)).2 h
    rw [if_pos hlen, if_neg h]
    simp only [removedKeys_eq_spec, mediapackage.awsString]
    split
    · rename_i err s1 heq
      simp [mediapackage.Call.view, heq, h]
    · rename_i s1 heq
      rw [tagStep_calls_view]
      simp [mediapackage.Call.view, heq, h]

theorem Call.isUntag_view (c : mediapackage.Call) : c.view.isUntag = c.isUntag := by
  cases c <;> rfl

theorem Call.isTag_view (c : mediapackage.Call) : c.view.isTag = c.isTag := by
  cases c <;> rfl

theorem Call.payloadKeys_view (c : mediapackage.Call) : c.view.payloadKeys = c.payloadKeys := by
  cases c <;> rfl

theorem specRemovedKeys_ne_nil_iff (isSystemKey : String → Bool) (observed desired : StringMap) :
    mediapackage.specRemovedKeys isSystemKey observed desired ≠ [] ↔
      ∃ k ∈ observed.keys, isSystemKey k = false ∧ k ∉ desired.keys := by
  unfold mediapackage.specRemovedKeys
  rw [Ne, List.filter_eq_nil_iff]
  simp

theorem specUpdatedEntries_ne_nil_iff (isSystemKey : String → Bool)
    (observed desired : StringMap) :
    mediapackage.specUpdatedEntries isSystemKey observed desired ≠ [] ↔
      ∃ e ∈ desired.entries, isSystemKey e.1 = false ∧ observed.lookup e.1 ≠ some e.2 := by
  unfold mediapackage.specUpdatedEntries
  rw [Ne, List.filter_eq_nil_iff]
  simp only [not_forall, Classical.not_imp, not_not, exists_prop]
  constructor
  · rintro ⟨e, he, h⟩
    refine ⟨e, he, ?_⟩
    cases hl : observed.lookup e.1 with
    | none => simpa [hl] using h
    | some v => simpa [hl] using h
  · rintro ⟨e, he, h1, h2⟩
    refine ⟨e, he, ?_⟩
    cases hl : observed.lookup e.1 with
    | none => simp [h1]
    | some v =>
      rw [hl] at h2
      have hv : v ≠ e.2 := fun hv => h2 (by rw [hv])
      simp [h1, hv]

theorem specRemovedKeys_self (isSystemKey : String → Bool) (d : StringMap) :
    mediapackage.specRemovedKeys isSystemKey d d = [] := by
  by_contra h
  obtain ⟨k, hk, _, hn⟩ := (specRemovedKeys_ne_nil_iff isSystemKey d d).1 h
  exact hn hk

theorem specUpdatedEntries_self (isSystemKey : String → Bool) (d : StringMap) :
    mediapackage.specUpdatedEntries isSystemKey d d = [] := by
  by_contra h
  obtain ⟨e, he, _, hn⟩ := (specUpdatedEntries_ne_nil_iff isSystemKey d d).1 h
  exact hn ((StringMap.lookup_eq_some_iff d e.1 e.2).2 he)

theorem updateTags_no_calls_of_nil {σ : Type} (isSystemKey : String → Bool)
    (conn : mediapackage.Client σ) (s : σ) (identifier : String)
    (oldTagsMap newTagsMap : Option StringMap)
    (hr : mediapackage.specRemovedKeys isSystemKey (tftags.New oldTagsMap)
      (tftags.New newTagsMap) = [])
    (hu : mediapackage.specUpdatedEntries isSystemKey (tftags.New oldTagsMap)
      (tftags.New newTagsMap) = []) :
    (mediapackage.updateTags isSystemKey conn s identifier oldTagsMap newTagsMap).calls = [] ∧
    (mediapackage.updateTags isSystemKey conn s identifier oldTagsMap newTagsMap).result = none ∧
    (mediapackage.updateTags isSystemKey conn s identifier oldTagsMap newTagsMap).state = s := by
  have h1 : ¬ ((tftags.KeyValueTags.Removed (tftags.New oldTagsMap)
      (tftags.New newTagsMap)).IgnoreSystem isSystemKey).len > 0 := by
    rw [removedLen_pos_iff]
    simpa using hr
  have h2 : ¬ ((tftags.KeyValueTags.Updated (tftags.New oldTagsMap)
      (tftags.New newTagsMap)).IgnoreSystem isSystemKey).len > 0 := by
    rw [updatedLen_pos_iff]
    simpa using hu
  unfold mediapackage.updateTags
  simp only []
  rw [if_neg h1]
  unfold mediapackage.updateTags.tagStep
  simp only []
  rw [if_neg h2]
  exact ⟨rfl, rfl, rfl⟩

theorem updateTags_result_of_success {σ : Type} (isSystemKey : String → Bool)
    (conn : mediapackage.Client σ) (s : σ) (identifier : String)
    (oldTagsMap newTagsMap : Option StringMap)
    (hU : ∀ i t, (conn.UntagResource i t).1 = none)
    (hT : ∀ i t, (conn.TagResource i t).1 = none) :
    (mediapackage.updateTags isSystemKey conn s identifier oldTagsMap newTagsMap).result =
      none := by
  unfold mediapackage.updateTags
  simp only []
  split
  · split
    · rename_i err s1 heq
      have hnone := congrArg Prod.fst heq
      rw [hU] at hnone
      exact absurd hnone (by simp)
    · exact tagStep_result isSystemKey conn identifier _ _ _ _ hT
  · exact tagStep_result isSystemKey conn identifier _ _ _ _ hT

/-! ## Claims on `updateTags` -/

/-- C2: against a transport whose calls all succeed, `updateTags` issues exactly one
`UntagResource` call for the identifier with the non-system keys of the observed tags
that are absent from the desired ones (no call when there is none), then one
`TagResource` call for the identifier with the non-system entries of the desired tags
that are new or differ from the observed ones (no call when there is none); at most two
calls are issued and the result is `nil`. -/
theorem updateTags_calls_of_succeeding_transport {σ : Type} (isSystemKey : String → Bool)
    (conn : mediapackage.Client σ) (s : σ) (identifier : String)
    (oldTagsMap newTagsMap : Option StringMap)
    (hU : ∀ i t, (conn.UntagResource i t).1 = none)
    (hT : ∀ i t, (conn.TagResource i t).1 = none) :
    (mediapackage.updateTags isSystemKey conn s identifier oldTagsMap newTagsMap).calls.map
        mediapackage.Call.view =
      (if mediapackage.specRemovedKeys isSystemKey (tftags.New oldTagsMap)
            (tftags.New newTagsMap) = [] then []
       else [mediapackage.CallView.untag (some identifier)
          (mediapackage.specRemovedKeys isSystemKey (tftags.New oldTagsMap)
            (tftags.New newTagsMap))]) ++
      (if mediapackage.specUpdatedEntries isSystemKey (tftags.New oldTagsMap)
            (tftags.New newTagsMap) = [] then []
       else [mediapackage.CallView.tag (some identifier)
          (mediapackage.specUpdatedEntries isSystemKey (tftags.New oldTagsMap)
            (tftags.New newTagsMap))]) ∧
    (mediapackage.updateTags isSystemKey conn s identifier oldTagsMap newTagsMap).calls.length ≤ 2 ∧
    (mediapackage.updateTags isSystemKey conn s identifier oldTagsMap newTagsMap).result =
      none := by
  have hv := updateTags_calls_view isSystemKey conn s identifier oldTagsMap newTagsMap
  have hc : ¬ (mediapackage.specRemovedKeys isSystemKey (tftags.New oldTagsMap)
        (tftags.New newTagsMap) ≠ [] ∧
      (conn.UntagResource
        ⟨some identifier, mediapackage.specRemovedKeys isSystemKey (tftags.New oldTagsMap)
          (tftags.New newTagsMap)⟩ s).1 ≠ none) := fun h => h.2 (hU _ _)
  rw [if_neg hc] at hv
  refine ⟨hv, ?_, updateTags_result_of_success isSystemKey conn s identifier _ _ hU hT⟩
  have hl := congrArg List.length hv
  rw [List.length_map] at hl
  rw [hl, List.length_append]
  split <;> split <;> simp

/-- Witness of C2: observed `a:1, b:2` and desired `b:3, c:4` give an untag call with
`[a]`, then a tag call with `b:3, c:4`, and the result `nil`. -/
theorem updateTags_calls_of_succeeding_transport_witness :
    (∀ i t, (mediapackage.succeedingClient.UntagResource i t).1 = none) ∧
    (∀ i t, (mediapackage.succeedingClient.TagResource i t).1 = none) ∧
    (mediapackage.updateTags mediapackage.awsPrefixed mediapackage.succeedingClient 0 "arn:mp"
        (some mediapackage.tagsAB) (some mediapackage.tagsBC)).calls.map mediapackage.Call.view =
      [mediapackage.CallView.untag (some "arn:mp") ["a"],
        mediapackage.CallView.tag (some "arn:mp") [("b", "3"), ("c", "4")]] ∧
    (mediapackage.updateTags mediapackage.awsPrefixed mediapackage.succeedingClient 0 "arn:mp"
        (some mediapackage.tagsAB) (some mediapackage.tagsBC)).result = none :=
  ⟨fun _ _ => rfl, fun _ _ => rfl,
    (updateTags_calls_of_succeeding_transport mediapackage.awsPrefixed
      mediapackage.succeedingClient 0 "arn:mp" (some mediapackage.tagsAB)
      (some mediapackage.tagsBC) (fun _ _ => rfl) (fun _ _ => rfl)).1.trans (by decide),
    (updateTags_calls_of_succeeding_transport mediapackage.awsPrefixed
      mediapackage.succeedingClient 0 "arn:mp" (some mediapackage.tagsAB)
      (some mediapackage.tagsBC) (fun _ _ => rfl) (fun _ _ => rfl)).2.2⟩

/-- C5: idempotence. With the same tag set as observed and as desired, `updateTags`
issues no remote call, returns `nil` and leaves the remote state as it was. -/
theorem updateTags_idempotent {σ : Type} (isSystemKey : String → Bool)
    (conn : mediapackage.Client σ) (s : σ) (identifier : String)
    (desired : Option StringMap) :
    (mediapackage.updateTags isSystemKey conn s identifier desired desired).calls = [] ∧
    (mediapackage.updateTags isSystemKey conn s identifier desired desired).result = none ∧
    (mediapackage.updateTags isSystemKey conn s identifier desired desired).state = s :=
  updateTags_no_calls_of_nil isSystemKey conn s identifier desired desired
    (specRemovedKeys_self isSystemKey _) (specUpdatedEntries_self isSystemKey _)

theorem updateTags_of_untag_failure {σ : Type} (isSystemKey : String → Bool)
    (conn : mediapackage.Client σ) (s : σ) (identifier : String)
    (oldTagsMap newTagsMap : Option StringMap) (c : GoError)
    (hrem : mediapackage.specRemovedKeys isSystemKey (tftags.New oldTagsMap)
      (tftags.New newTagsMap) ≠ [])
    (hfail : (conn.UntagResource
      ⟨some identifier, mediapackage.specRemovedKeys isSystemKey (tftags.New oldTagsMap)
        (tftags.New newTagsMap)⟩ s).1 = some c) :
    (mediapackage.updateTags isSystemKey conn s identifier oldTagsMap newTagsMap).calls =
      [mediapackage.Call.UntagResource
        ⟨some identifier, mediapackage.specRemovedKeys isSystemKey (tftags.New oldTagsMap)
          (tftags.New newTagsMap)⟩] ∧
    (mediapackage.updateTags isSystemKey conn s identifier oldTagsMap newTagsMap).result =
      some (fmtErrorf "untagging resource (" identifier "): " c) := by
  have hlen := (removedLen_pos_iff isSystemKey (tftags.New oldTagsMap)
    (tftags.New newTagsMap)).2 hrem
  unfold mediapackage.updateTags
  simp only []
  rw [if_pos hlen]
  simp only [removedKeys_eq_spec, mediapackage.awsString]
  split
  · rename_i err s1 heq
    rw [heq] at hfail
    have hc : err = c := by simpa using hfail
    rw [hc]
    exact ⟨rfl, rfl⟩
  · rename_i s1 heq
    rw [heq] at hfail
    exact absurd hfail (by simp)

/-- C4: when the filtered set of removed keys is not empty and the `UntagResource` call
fails with cause `c`, `updateTags` returns an error whose message is
`untagging resource (<identifier>): ` followed by the text of `c` and which wraps `c`;
the `UntagResource` call is the only remote call, and no `TagResource` call is issued. -/
theorem updateTags_untag_failure_stops {σ : Type} (isSystemKey : String → Bool)
    (conn : mediapackage.Client σ) (s : σ) (identifier : String)
    (oldTagsMap newTagsMap : Option StringMap) (c : GoError)
    (hrem : mediapackage.specRemovedKeys isSystemKey (tftags.New oldTagsMap)
      (tftags.New newTagsMap) ≠ [])
    (hfail : (conn.UntagResource
      ⟨some identifier, mediapackage.specRemovedKeys isSystemKey (tftags.New oldTagsMap)
        (tftags.New newTagsMap)⟩ s).1 = some c) :
    (∃ e, (mediapackage.updateTags isSystemKey conn s identifier oldTagsMap newTagsMap).result =
        some e ∧
      e.Error = "untagging resource (" ++ identifier ++ "): " ++ c.Error ∧
      e.Unwrap = some c) ∧
    (mediapackage.updateTags isSystemKey conn s identifier oldTagsMap newTagsMap).calls.map
        mediapackage.Call.view =
      [mediapackage.CallView.untag (some identifier)
        (mediapackage.specRemovedKeys isSystemKey (tftags.New oldTagsMap)
          (tftags.New newTagsMap))] ∧
    (mediapackage.updateTags isSystemKey conn s identifier oldTagsMap newTagsMap).calls.length =
      1 ∧
    (mediapackage.updateTags isSystemKey conn s identifier oldTagsMap newTagsMap).calls.any
      mediapackage.Call.isTag = false := by
  obtain ⟨hcalls, hres⟩ := updateTags_of_untag_failure isSystemKey conn s identifier
    oldTagsMap newTagsMap c hrem hfail
  refine ⟨⟨_, hres, rfl, rfl⟩, ?_, ?_, ?_⟩
  · rw [hcalls]
    rfl
  · rw [hcalls]
    rfl
  · rw [hcalls]
    rfl

/-- Witness of C4: observed `a:1`, desired `b:2`, and an `UntagResource` call that fails
with `throttled`. -/
theorem updateTags_untag_failure_stops_witness :
    (mediapackage.updateTags mediapackage.awsPrefixed mediapackage.failingClient 0 "arn:mp"
        (some mediapackage.tagsA) (some mediapackage.tagsB)).result =
      some (.wrapError "untagging resource (arn:mp): throttled" (.errorString "throttled")) ∧
    (mediapackage.updateTags mediapackage.awsPrefixed mediapackage.failingClient 0 "arn:mp"
        (some mediapackage.tagsA) (some mediapackage.tagsB)).calls.map mediapackage.Call.view =
      [mediapackage.CallView.untag (some "arn:mp") ["a"]] ∧
    (mediapackage.updateTags mediapackage.awsPrefixed mediapackage.failingClient 0 "arn:mp"
        (some mediapackage.tagsA) (some mediapackage.tagsB)).calls.length = 1 := by
  have h := updateTags_untag_failure_stops mediapackage.awsPrefixed mediapackage.failingClient
    0 "arn:mp" (some mediapackage.tagsA) (some mediapackage.tagsB) (.errorString "throttled")
    (by decide) rfl
  refine ⟨by decide, h.2.1.trans (by decide), h.2.2.1⟩

theorem mem_specRemovedKeys_nonSystem (isSystemKey : String → Bool)
    (observed desired : StringMap) (k : String)
    (hk : k ∈ mediapackage.specRemovedKeys isSystemKey observed desired) :
    isSystemKey k = false := by
  unfold mediapackage.specRemovedKeys at hk
  have h := (List.mem_filter.1 hk).2
  simp only [Bool.and_eq_true, Bool.not_eq_true'] at h
  exact h.1

theorem mem_specUpdatedEntries_nonSystem (isSystemKey : String → Bool)
    (observed desired : StringMap) (k : String)
    (hk : k ∈ (mediapackage.specUpdatedEntries isSystemKey observed desired).map Prod.fst) :
    isSystemKey k = false := by
  obtain ⟨e, he, hek⟩ := List.mem_map.1 hk
  unfold mediapackage.specUpdatedEntries at he
  have h := (List.mem_filter.1 he).2
  simp only [Bool.and_eq_true, Bool.not_eq_true'] at h
  rw [← hek]
  exact h.1

/-- C3: whatever the transport does, no key that matches the system-tag filter is among
the `TagKeys` of an `UntagResource` call or the keys of the `Tags` of a `TagResource`
call issued by `updateTags`; and when every observed key is system-reserved and the
desired tag set is empty, `updateTags` issues no remote call. -/
theorem updateTags_payload_excludes_system_keys {σ : Type} (isSystemKey : String → Bool)
    (conn : mediapackage.Client σ) (s : σ) (identifier : String)
    (oldTagsMap newTagsMap : Option StringMap) :
    (∀ c ∈ (mediapackage.updateTags isSystemKey conn s identifier oldTagsMap newTagsMap).calls,
      ∀ k ∈ c.payloadKeys, isSystemKey k = false) ∧
    ((∀ k ∈ (tftags.New oldTagsMap).keys, isSystemKey k = true) →
      (tftags.New newTagsMap).entries = [] →
      (mediapackage.updateTags isSystemKey conn s identifier oldTagsMap newTagsMap).calls =
        []) := by
  constructor
  · intro c hc k hk
    have hmem : c.view ∈
        (mediapackage.updateTags isSystemKey conn s identifier oldTagsMap newTagsMap).calls.map
          mediapackage.Call.view := List.mem_map_of_mem _ hc
    rw [← Call.payloadKeys_view] at hk
    rw [updateTags_calls_view, List.mem_append] at hmem
    rcases hmem with h | h
    · split at h
      · exact absurd h (List.not_mem_nil _)
      · rw [List.mem_singleton] at h
        rw [h] at hk
        exact mem_specRemovedKeys_nonSystem isSystemKey _ _ k hk
    · split at h
      · exact absurd h (List.not_mem_nil _)
      · split at h
        · exact absurd h (List.not_mem_nil _)
        · rw [List.mem_singleton] at h
          rw [h] at hk
          exact mem_specUpdatedEntries_nonSystem isSystemKey _ _ k hk
  · intro hsys hempty
    have hr : mediapackage.specRemovedKeys isSystemKey (tftags.New oldTagsMap)
        (tftags.New newTagsMap) = [] := by
      by_contra h
      obtain ⟨k, hk, hf, _⟩ := (specRemovedKeys_ne_nil_iff isSystemKey _ _).1 h
      rw [hsys k hk] at hf
      exact absurd hf (by simp)
    have hu : mediapackage.specUpdatedEntries isSystemKey (tftags.New oldTagsMap)
        (tftags.New newTagsMap) = [] := by
      unfold mediapackage.specUpdatedEntries
      rw [hempty]
      rfl
    exact (updateTags_no_calls_of_nil isSystemKey conn s identifier _ _ hr hu).1

/-- Witness of C3: observed tags with the system-reserved key `aws:createdBy` only and
no desired tags give no remote call, even against a failing transport. -/
theorem updateTags_payload_excludes_system_keys_witness :
    (∀ k ∈ (tftags.New (some mediapackage.tagsSys)).keys, mediapackage.awsPrefixed k = true) ∧
    (tftags.New none).entries = [] ∧
    (mediapackage.updateTags mediapackage.awsPrefixed mediapackage.failingClient 0 "arn:mp"
      (some mediapackage.tagsSys) none).calls = [] :=
  ⟨by decide, rfl,
    (updateTags_payload_excludes_system_keys mediapackage.awsPrefixed
      mediapackage.failingClient 0 "arn:mp" (some mediapackage.tagsSys) none).2
      (by decide) rfl⟩

theorem calls_any_isUntag (cs : List mediapackage.Call) :
    cs.any mediapackage.Call.isUntag =
      (cs.map mediapackage.Call.view).any mediapackage.CallView.isUntag := by
  induction cs with
  | nil => rfl
  | cons c cs ih => simp [List.any_cons, ih, Call.isUntag_view]

theorem calls_any_isTag (cs : List mediapackage.Call) :
    cs.any mediapackage.Call.isTag =
      (cs.map mediapackage.Call.view).any mediapackage.CallView.isTag := by
  induction cs with
  | nil => rfl
  | cons c cs ih => simp [List.any_cons, ih, Call.isTag_view]

/-- C1, amended: `updateTags` issues an `UntagResource` call if and only if the observed
tags have a non-system key that is absent from the desired tags; it issues a
`TagResource` call if and only if the desired tags have a non-system key that is missing
from the observed tags or whose value differs there, and the `UntagResource` call, when
one is issued, succeeds. -/
theorem updateTags_issues_calls_iff {σ : Type} (isSystemKey : String → Bool)
    (conn : mediapackage.Client σ) (s : σ) (identifier : String)
    (oldTagsMap newTagsMap : Option StringMap) :
    ((mediapackage.updateTags isSystemKey conn s identifier oldTagsMap newTagsMap).calls.any
        mediapackage.Call.isUntag = true ↔
      ∃ k ∈ (tftags.New oldTagsMap).keys,
        isSystemKey k = false ∧ k ∉ (tftags.New newTagsMap).keys) ∧
    ((mediapackage.updateTags isSystemKey conn s identifier oldTagsMap newTagsMap).calls.any
        mediapackage.Call.isTag = true ↔
      (∃ e ∈ (tftags.New newTagsMap).entries,
        isSystemKey e.1 = false ∧ (tftags.New oldTagsMap).lookup e.1 ≠ some e.2) ∧
      ((∃ k ∈ (tftags.New oldTagsMap).keys,
          isSystemKey k = false ∧ k ∉ (tftags.New newTagsMap).keys) →
        (conn.UntagResource
          ⟨some identifier, mediapackage.specRemovedKeys isSystemKey (tftags.New oldTagsMap)
            (tftags.New newTagsMap)⟩ s).1 = none)) := by
  have hU : (mediapackage.updateTags isSystemKey conn s identifier oldTagsMap
      newTagsMap).calls.any mediapackage.Call.isUntag =
      ((mediapackage.updateTags isSystemKey conn s identifier oldTagsMap
        newTagsMap).calls.map mediapackage.Call.view).any mediapackage.CallView.isUntag :=
    calls_any_isUntag _
  have hT : (mediapackage.updateTags isSystemKey conn s identifier oldTagsMap
      newTagsMap).calls.any mediapackage.Call.isTag =
      ((mediapackage.updateTags isSystemKey conn s identifier oldTagsMap
        newTagsMap).calls.map mediapackage.Call.view).any mediapackage.CallView.isTag :=
    calls_any_isTag _
  rw [hU, hT, updateTags_calls_view, ← specRemovedKeys_ne_nil_iff,
    ← specUpdatedEntries_ne_nil_iff]
  by_cases hr : mediapackage.specRemovedKeys isSystemKey (tftags.New oldTagsMap)
      (tftags.New newTagsMap) = []
  · by_cases hu : mediapackage.specUpdatedEntries isSystemKey (tftags.New oldTagsMap)
        (tftags.New newTagsMap) = []
    · simp [hr, hu, mediapackage.CallView.isUntag, mediapackage.CallView.isTag]
    · simp [hr, hu, mediapackage.CallView.isUntag, mediapackage.CallView.isTag]
  · by_cases hu : mediapackage.specUpdatedEntries isSystemKey (tftags.New oldTagsMap)
        (tftags.New newTagsMap) = []
    · by_cases hf : (conn.UntagResource
          ⟨some identifier, mediapackage.specRemovedKeys isSystemKey (tftags.New oldTagsMap)
            (tftags.New newTagsMap)⟩ s).1 = none
      · simp [hr, hu, hf, mediapackage.CallView.isUntag, mediapackage.CallView.isTag]
      · simp [hr, hu, hf, mediapackage.CallView.isUntag, mediapackage.CallView.isTag]
    · by_cases hf : (conn.UntagResource
          ⟨some identifier, mediapackage.specRemovedKeys isSystemKey (tftags.New oldTagsMap)
            (tftags.New newTagsMap)⟩ s).1 = none
      · simp [hr, hu, hf, mediapackage.CallView.isUntag, mediapackage.CallView.isTag]
      · simp [hr, hu, hf, mediapackage.CallView.isUntag, mediapackage.CallView.isTag]

/-- C1 as stated fails: observed `a:1`, desired `b:2`, and a transport whose
`UntagResource` call fails. The desired tags have the non-system key `b`, which is
missing from the observed tags, and no `TagResource` call is issued. -/
theorem updateTags_issues_calls_iff_counterexample :
    ¬ (((mediapackage.updateTags mediapackage.awsPrefixed mediapackage.failingClient 0 "arn:mp"
          (some mediapackage.tagsA) (some mediapackage.tagsB)).calls.any
          mediapackage.Call.isUntag = true ↔
        ∃ k ∈ (tftags.New (some mediapackage.tagsA)).keys,
          mediapackage.awsPrefixed k = false ∧ k ∉ (tftags.New (some mediapackage.tagsB)).keys) ∧
      ((mediapackage.updateTags mediapackage.awsPrefixed mediapackage.failingClient 0 "arn:mp"
          (some mediapackage.tagsA) (some mediapackage.tagsB)).calls.any
          mediapackage.Call.isTag = true ↔
        ∃ e ∈ (tftags.New (some mediapackage.tagsB)).entries,
          mediapackage.awsPrefixed e.1 = false ∧
            (tftags.New (some mediapackage.tagsA)).lookup e.1 ≠ some e.2)) := by
  decide

/-! ## Claims on `listTags` and `ListTags` -/

/-- C10: when the `ListTagsForResource` call fails with error `e`, `listTags` and
`ListTags` return exactly `e` after that one call, and `ListTags` leaves the tagging
data of the context, `TagsOut` included, as it was; when the call succeeds, `ListTags`
returns `nil` and sets `TagsOut` to `Some` of the tag set of the returned map. -/
theorem listTags_error_passthrough_and_publish {σ : Type} (ctx : Option tftags.InContext)
    (conn : mediapackage.Client σ) (s : σ) (identifier : String) :
    (∀ e s1, conn.ListTagsForResource ⟨some identifier⟩ s = (.error e, s1) →
      (mediapackage.listTags conn s identifier).result.2 = some e ∧
      (mediapackage.listTags conn s identifier).calls.map mediapackage.Call.view =
        [mediapackage.CallView.list (some identifier)] ∧
      (mediapackage.ListTags ctx conn s identifier).1.result = some e ∧
      (mediapackage.ListTags ctx conn s identifier).1.calls.map mediapackage.Call.view =
        [mediapackage.CallView.list (some identifier)] ∧
      (mediapackage.ListTags ctx conn s identifier).2 = ctx) ∧
    (∀ output s1, conn.ListTagsForResource ⟨some identifier⟩ s = (.ok output, s1) →
      (mediapackage.listTags conn s identifier).result = (output.Tags, none) ∧
      (mediapackage.ListTags ctx conn s identifier).1.result = none ∧
      (mediapackage.ListTags ctx conn s identifier).1.calls.map mediapackage.Call.view =
        [mediapackage.CallView.list (some identifier)] ∧
      (mediapackage.ListTags ctx conn s identifier).2 =
        ctx.map (fun inContext => { inContext with TagsOut := some output.Tags })) := by
  constructor
  · intro e s1 h
    have hl : mediapackage.listTags conn s identifier =
        ⟨[mediapackage.Call.ListTagsForResource ⟨some identifier⟩], s1,
          (tftags.New none, some e)⟩ := by
      unfold mediapackage.listTags
      simp only [mediapackage.awsString]
      rw [h]
    unfold mediapackage.ListTags
    simp only []
    rw [hl]
    exact ⟨rfl, rfl, rfl, rfl, rfl⟩
  · intro output s1 h
    have hl : mediapackage.listTags conn s identifier =
        ⟨[mediapackage.Call.ListTagsForResource ⟨some identifier⟩], s1,
          (output.Tags, none)⟩ := by
      unfold mediapackage.listTags
      simp only [mediapackage.awsString]
      rw [h]
      rfl
    unfold mediapackage.ListTags
    simp only []
    rw [hl]
    cases ctx with
    | none => exact ⟨rfl, rfl, rfl, rfl⟩
    | some inContext => exact ⟨rfl, rfl, rfl, rfl⟩

/-- Witness of C10: a failing listing leaves `TagsOut` at `a:1` and returns the
transport's error; a listing that returns `env:prod` sets `TagsOut` to it. -/
theorem listTags_error_passthrough_and_publish_witness :
    (mediapackage.ListTags (some mediapackage.sampleInContext) mediapackage.failingClient 0
        "arn:mp").1.result = some (.errorString "throttled") ∧
    (mediapackage.ListTags (some mediapackage.sampleInContext) mediapackage.failingClient 0
        "arn:mp").2 = some mediapackage.sampleInContext ∧
    (mediapackage.ListTags (some mediapackage.sampleInContext) mediapackage.succeedingClient 0
        "arn:mp").1.result = none ∧
    ((mediapackage.ListTags (some mediapackage.sampleInContext) mediapackage.succeedingClient 0
        "arn:mp").2.map (fun inContext => inContext.TagsOut.map StringMap.entries)) =
      some (some [("env", "prod")]) := by
  have h := listTags_error_passthrough_and_publish (some mediapackage.sampleInContext)
    mediapackage.failingClient 0 "arn:mp"
  have h1 := h.1 (.errorString "throttled") 1 rfl
  have g := listTags_error_passthrough_and_publish (some mediapackage.sampleInContext)
    mediapackage.succeedingClient 0 "arn:mp"
  have g1 := g.2 ⟨⟨[("env", "prod")], by decide⟩⟩ 1 rfl
  refine ⟨h1.2.2.1, h1.2.2.2.2, g1.2.1, ?_⟩
  rw [g1.2.2.2]
  rfl

/-! ## Claims on `Open` -/

/-- C6, amended: a raw input is present when it is non-null, the empty string included.
If `version_id` is non-null the request carries that version ID and no version stage;
otherwise if `version_stage` is non-null the request carries that version stage and no
version ID; otherwise it carries neither. The request never carries both, and it is the
one request that `Open` passes to the lookup when the configuration decodes without
error. -/
theorem open_selectVersion_precedence (x : secretsmanager.Externals)
    (request : secretsmanager.OpenRequest) (response : secretsmanager.OpenResponse) :
    (request.ConfigGet.1.VersionID.IsNull = false →
      (secretsmanager.Open.selectVersion x request.ConfigGet.1).1.VersionId =
          request.ConfigGet.1.VersionID.ValueStringPointer ∧
        (secretsmanager.Open.selectVersion x request.ConfigGet.1).1.VersionId.isSome = true ∧
        (secretsmanager.Open.selectVersion x request.ConfigGet.1).1.VersionStage = none) ∧
    (request.ConfigGet.1.VersionID.IsNull = true →
      request.ConfigGet.1.VersionStage.IsNull = false →
      (secretsmanager.Open.selectVersion x request.ConfigGet.1).1.VersionStage =
          request.ConfigGet.1.VersionStage.ValueStringPointer ∧
        (secretsmanager.Open.selectVersion x request.ConfigGet.1).1.VersionStage.isSome = true ∧
        (secretsmanager.Open.selectVersion x request.ConfigGet.1).1.VersionId = none) ∧
    (request.ConfigGet.1.VersionID.IsNull = true →
      request.ConfigGet.1.VersionStage.IsNull = true →
      (secretsmanager.Open.selectVersion x request.ConfigGet.1).1.VersionId = none ∧
        (secretsmanager.Open.selectVersion x request.ConfigGet.1).1.VersionStage = none) ∧
    ¬ ((secretsmanager.Open.selectVersion x request.ConfigGet.1).1.VersionId.isSome = true ∧
      (secretsmanager.Open.selectVersion x request.ConfigGet.1).1.VersionStage.isSome = true) ∧
    (secretsmanager.Open x request response).lookups =
      (if secretsmanager.Diagnostics.HasError
          (secretsmanager.Diagnostics.Append response.Diagnostics request.ConfigGet.2) then []
       else [(secretsmanager.Open.selectVersion x request.ConfigGet.1).1]) := by
  refine ⟨?_, ?_, ?_, ?_, ?_⟩
  · intro h
    unfold secretsmanager.Open.selectVersion
    simp only [h]
    cases hv : request.ConfigGet.1.VersionID with
    | null => rw [hv] at h; exact absurd h (by decide)
    | unknown => exact ⟨rfl, rfl, rfl⟩
    | known v => exact ⟨rfl, rfl, rfl⟩
  · intro h1 h2
    unfold secretsmanager.Open.selectVersion
    simp only [h1, h2]
    cases hv : request.ConfigGet.1.VersionStage with
    | null => rw [hv] at h2; exact absurd h2 (by decide)
    | unknown => exact ⟨rfl, rfl, rfl⟩
    | known v => exact ⟨rfl, rfl, rfl⟩
  · intro h1 h2
    unfold secretsmanager.Open.selectVersion
    simp only [h1, h2]
    exact ⟨rfl, rfl⟩
  · unfold secretsmanager.Open.selectVersion
    cases h1 : request.ConfigGet.1.VersionID.IsNull <;>
      cases h2 : request.ConfigGet.1.VersionStage.IsNull <;> simp
  · unfold secretsmanager.Open
    simp only []
    split
    · rfl
    · split <;> rfl

/-- Witness of C6, amended: `(v1, STAGE)` selects the version ID `v1`, a null version ID
with `STAGE` selects the version stage `STAGE`, two nulls select neither, and the empty
version ID with `STAGE` selects the version ID that is the empty string. -/
theorem open_selectVersion_precedence_witness :
    (secretsmanager.Open (secretsmanager.sampleExternals (.ok secretsmanager.outputStringOnly))
        ⟨(secretsmanager.dataOf "s1" (.known "v1") (.known "STAGE"), [])⟩
        secretsmanager.emptyResponse).lookups = [⟨some "s1", some "v1", none⟩] ∧
    (secretsmanager.Open (secretsmanager.sampleExternals (.ok secretsmanager.outputStringOnly))
        ⟨(secretsmanager.dataOf "s1" .null (.known "STAGE"), [])⟩
        secretsmanager.emptyResponse).lookups = [⟨some "s1", none, some "STAGE"⟩] ∧
    (secretsmanager.Open (secretsmanager.sampleExternals (.ok secretsmanager.outputStringOnly))
        ⟨(secretsmanager.dataOf "s1" .null .null, [])⟩
        secretsmanager.emptyResponse).lookups = [⟨some "s1", none, none⟩] ∧
    (secretsmanager.Open (secretsmanager.sampleExternals (.ok secretsmanager.outputStringOnly))
        ⟨(secretsmanager.dataOf "s1" (.known "") (.known "STAGE"), [])⟩
        secretsmanager.emptyResponse).lookups = [⟨some "s1", some "", none⟩] ∧
    (secretsmanager.Open.selectVersion
        (secretsmanager.sampleExternals (.ok secretsmanager.outputStringOnly))
        (secretsmanager.dataOf "s1" (.known "v1") (.known "STAGE"))).1.VersionStage = none ∧
    (secretsmanager.Open.selectVersion
        (secretsmanager.sampleExternals (.ok secretsmanager.outputStringOnly))
        (secretsmanager.dataOf "s1" .null (.known "STAGE"))).1.VersionId = none ∧
    (secretsmanager.Open.selectVersion
        (secretsmanager.sampleExternals (.ok secretsmanager.outputStringOnly))
        (secretsmanager.dataOf "s1" .null .null)).1.VersionStage = none :=
  ⟨(open_selectVersion_precedence _ _ _).2.2.2.2.trans (by decide),
    (open_selectVersion_precedence _ _ _).2.2.2.2.trans (by decide),
    (open_selectVersion_precedence _ _ _).2.2.2.2.trans (by decide),
    (open_selectVersion_precedence _ _ _).2.2.2.2.trans (by decide),
    ((open_selectVersion_precedence
      (secretsmanager.sampleExternals (.ok secretsmanager.outputStringOnly))
      ⟨(secretsmanager.dataOf "s1" (.known "v1") (.known "STAGE"), [])⟩
      secretsmanager.emptyResponse).1 (by decide)).2.2,
    ((open_selectVersion_precedence
      (secretsmanager.sampleExternals (.ok secretsmanager.outputStringOnly))
      ⟨(secretsmanager.dataOf "s1" .null (.known "STAGE"), [])⟩
      secretsmanager.emptyResponse).2.1 (by decide) (by decide)).2.2,
    ((open_selectVersion_precedence
      (secretsmanager.sampleExternals (.ok secretsmanager.outputStringOnly))
      ⟨(secretsmanager.dataOf "s1" .null .null, [])⟩
      secretsmanager.emptyResponse).2.2.1 (by decide) (by decide)).2⟩

/-- C6 as stated fails: with the empty string as version ID and `STAGE` as version
stage, the claim has the request carry the version stage `STAGE` and no version ID; the
request of `Open` carries the empty version ID and no version stage. -/
theorem open_selectVersion_precedence_counterexample :
    ¬ ((secretsmanager.Open
          (secretsmanager.sampleExternals (.ok secretsmanager.outputStringOnly))
          ⟨(secretsmanager.dataOf "s1" (.known "") (.known "STAGE"), [])⟩
          secretsmanager.emptyResponse).lookups.map
          (fun input => (input.VersionId, input.VersionStage)) =
        [secretsmanager.specSelect (.known "") (.known "STAGE")]) := by
  decide

theorem open_store_panics_iff (x : secretsmanager.Externals)
    (data : secretsmanager.epSecretData) (output : secretsmanager.GetSecretValueOutput)
    (response : secretsmanager.OpenResponse) :
    secretsmanager.Open.store x data output response =
        .error secretsmanager.Panic.nilPointerDereference ↔
      (output.ARN = none ∨ output.CreatedDate = none ∨ output.SecretString = none) := by
  unfold secretsmanager.Open.store
  cases ha : output.ARN <;> cases hc : output.CreatedDate <;>
    cases hs : output.SecretString <;>
    simp [secretsmanager.deref, bind, Except.bind, pure, Except.pure]

theorem open_store_of_present (x : secretsmanager.Externals)
    (data : secretsmanager.epSecretData) (output : secretsmanager.GetSecretValueOutput)
    (response : secretsmanager.OpenResponse) (arn secret : String) (created : secretsmanager.Time)
    (ha : output.ARN = some arn) (hc : output.CreatedDate = some created)
    (hs : output.SecretString = some secret) :
    secretsmanager.Open.store x data output response =
      .ok { response with
        Result := some { data with
          ARN := x.StringValueToFramework arn,
          CreatedDate := x.StringValueToFramework (x.formatRFC3339 created),
          SecretBinary := x.StringValueToFramework (secretsmanager.goString x output.SecretBinary),
          SecretString := x.StringValueToFramework secret } } := by
  unfold secretsmanager.Open.store
  rw [ha, hc, hs]
  rfl

/-- C7 fails on the code: for a binary-only secret (a successful response without string
payload), `Open` panics on the nil `SecretString` pointer. -/
theorem open_binary_only_secret_panics :
    (secretsmanager.Open (secretsmanager.sampleExternals (.ok secretsmanager.outputBinaryOnly))
        ⟨(secretsmanager.dataByVersionID "s1" "v9", [])⟩
        secretsmanager.emptyResponse).outcome =
      .error secretsmanager.Panic.nilPointerDereference := by
  rfl

/-- The sample of C7 runs without fault: a response with a string payload `hello` and no
binary payload gives a result with that string, with the framework value of the empty
string as binary, and without diagnostics. -/
theorem open_string_only_secret_result :
    (secretsmanager.Open (secretsmanager.sampleExternals (.ok secretsmanager.outputStringOnly))
        ⟨(secretsmanager.dataByVersionID "s1" "v9", [])⟩
        secretsmanager.emptyResponse).outcome =
      .ok { Result := some
              { SecretID := .known "s1", VersionID := .known "v9", VersionStage := .null,
                ARN := .known "arn:aws:secretsmanager:eu-west-1:111122223333:secret:s1",
                CreatedDate := .known "2024-05-01T10:00:00Z",
                SecretBinary := .null, SecretString := .known "hello" },
            Diagnostics := [] } := by
  rfl

/-- C8, amended: the composite identifier is built from the rendered secret name and the
rendered version only, whichever selector the version comes from; the identifier for
`(s, ByVersionID(v))` equals the identifier for `(s, ByVersionStage(v))`. -/
theorem open_id_ignores_selector_variant (x : secretsmanager.Externals) (s v : String) :
    secretsmanager.Open.id x (secretsmanager.dataByVersionID s v) =
      x.secretVersionCreateResourceID (x.quote s) (x.quote v) ∧
    secretsmanager.Open.id x (secretsmanager.dataByVersionStage s v) =
      x.secretVersionCreateResourceID (x.quote s) (x.quote v) ∧
    secretsmanager.Open.id x (secretsmanager.dataByVersionID s v) =
      secretsmanager.Open.id x (secretsmanager.dataByVersionStage s v) :=
  ⟨rfl, rfl, rfl⟩

/-- C8 as stated fails: for `secretA` and `v1`, the identifier computed for the version
ID `v1` does not differ from the one computed for the version stage `v1`. -/
theorem open_id_ignores_selector_variant_counterexample :
    ¬ (secretsmanager.Open.id
          (secretsmanager.sampleExternals (.ok secretsmanager.outputStringOnly))
          (secretsmanager.dataByVersionID "secretA" "v1") ≠
        secretsmanager.Open.id
          (secretsmanager.sampleExternals (.ok secretsmanager.outputStringOnly))
          (secretsmanager.dataByVersionStage "secretA" "v1")) := by
  decide

theorem Diagnostics.mem_AddError (diags : secretsmanager.Diagnostics) (summary detail : String) :
    (⟨secretsmanager.Severity.error, summary, detail⟩ : secretsmanager.Diagnostic) ∈
      secretsmanager.Diagnostics.AddError diags summary detail := by
  unfold secretsmanager.Diagnostics.AddError secretsmanager.Diagnostics.Append
  simp only [List.foldl_cons, List.foldl_nil]
  split
  · assumption
  · simp

theorem Diagnostics.hasError_of_mem (diags : secretsmanager.Diagnostics)
    (d : secretsmanager.Diagnostic) (hd : d ∈ diags)
    (hs : d.severity = secretsmanager.Severity.error) :
    secretsmanager.Diagnostics.HasError diags = true := by
  unfold secretsmanager.Diagnostics.HasError
  rw [List.any_eq_true]
  exact ⟨d, hd, by simp [hs]⟩

/-- C9, amended: when the configuration decodes without error and the secret lookup
fails with an error of text `c`, `Open` returns with an error diagnostic whose summary is
`failed reading Secrets Manager Secret Version (<compositeIdentifier>)` and whose detail
is `c`, after that one lookup, and leaves the result as it was. -/
theorem open_lookup_failure_reported (x : secretsmanager.Externals)
    (request : secretsmanager.OpenRequest) (response : secretsmanager.OpenResponse)
    (err : GoError)
    (hcfg : secretsmanager.Diagnostics.HasError
      (secretsmanager.Diagnostics.Append response.Diagnostics request.ConfigGet.2) = false)
    (herr : x.findSecretVersion (secretsmanager.Open.selectVersion x request.ConfigGet.1).1 =
      .error err) :
    ∃ out, (secretsmanager.Open x request response).outcome = .ok out ∧
      (⟨secretsmanager.Severity.error,
          "failed reading Secrets Manager Secret Version (" ++
            secretsmanager.Open.id x request.ConfigGet.1 ++ ")",
          err.Error⟩ : secretsmanager.Diagnostic) ∈ out.Diagnostics ∧
      secretsmanager.Diagnostics.HasError out.Diagnostics = true ∧
      out.Result = response.Result ∧
      (secretsmanager.Open x request response).lookups =
        [(secretsmanager.Open.selectVersion x request.ConfigGet.1).1] := by
  unfold secretsmanager.Open
  simp only [hcfg, herr]
  refine ⟨_, rfl, Diagnostics.mem_AddError _ _ _, ?_, rfl, ?_⟩
  · exact Diagnostics.hasError_of_mem _ _ (Diagnostics.mem_AddError _ _ _) rfl
  · simp

/-- Witness of C9, amended: the lookup for `(s1, v9)` fails with `AccessDenied`. -/
theorem open_lookup_failure_reported_witness :
    (secretsmanager.Open
        (secretsmanager.sampleExternals (.error (.errorString "AccessDenied")))
        ⟨(secretsmanager.dataByVersionID "s1" "v9", [])⟩
        secretsmanager.emptyResponse).reported =
      [⟨secretsmanager.Severity.error,
        "failed reading Secrets Manager Secret Version (\"s1\"|\"v9\")", "AccessDenied"⟩] ∧
    ∃ out, (secretsmanager.Open
        (secretsmanager.sampleExternals (.error (.errorString "AccessDenied")))
        ⟨(secretsmanager.dataByVersionID "s1" "v9", [])⟩
        secretsmanager.emptyResponse).outcome = .ok out ∧ out.Result = none := by
  obtain ⟨out, h1, _, _, h4, _⟩ := open_lookup_failure_reported
    (secretsmanager.sampleExternals (.error (.errorString "AccessDenied")))
    ⟨(secretsmanager.dataByVersionID "s1" "v9", [])⟩ secretsmanager.emptyResponse
    (.errorString "AccessDenied") rfl rfl
  exact ⟨by decide, out, h1, h4⟩

/-- C9 as stated fails: when the lookup for `(s1, v9)` fails with `AccessDenied`, no
diagnostic of `Open` reads `failed reading secret (<compositeIdentifier>): AccessDenied`,
be it as its summary, as its detail, or as its summary and detail joined by a colon. -/
theorem open_lookup_failure_reported_counterexample :
    ¬ ∃ d ∈ (secretsmanager.Open
        (secretsmanager.sampleExternals (.error (.errorString "AccessDenied")))
        ⟨(secretsmanager.dataByVersionID "s1" "v9", [])⟩
        secretsmanager.emptyResponse).reported,
      d.summary = secretsmanager.specFailureText
          (secretsmanager.Open.id
            (secretsmanager.sampleExternals (.error (.errorString "AccessDenied")))
            (secretsmanager.dataByVersionID "s1" "v9")) "AccessDenied" ∨
        d.detail = secretsmanager.specFailureText
          (secretsmanager.Open.id
            (secretsmanager.sampleExternals (.error (.errorString "AccessDenied")))
            (secretsmanager.dataByVersionID "s1" "v9")) "AccessDenied" ∨
        d.summary ++ ": " ++ d.detail = secretsmanager.specFailureText
          (secretsmanager.Open.id
            (secretsmanager.sampleExternals (.error (.errorString "AccessDenied")))
            (secretsmanager.dataByVersionID "s1" "v9")) "AccessDenied" := by
  decide
